import Mathlib

attribute [local semireducible] Rat.mul Rat.inv Rat.add Rat.sub

/-!
Verification of the two scripts of `kaledh4/calc`:
`scripts/fetch_news.py` and `scripts/generate_insights.py`.

Both scripts implement a fetch-with-fallback chain followed by an artifact
write.  The shallow embedding below renders every effectful step explicit:

* the network is an oracle parameter (for the news script, the outcome of the
  GNews HTTP request; for the insight script, a function from the submitted
  prompt and model identifier to the optional response text);
* `datetime.utcnow().isoformat()` is a timestamp parameter (`ts`/`now`);
* the artifact write (`os.makedirs` + `open` + `json.dump`) is a parameter
  returning `Except PyErr Unit`; its error propagates, as in the scripts,
  where the write is not inside any `try`;
* Python `float` values read from JSON are modelled as `ℚ` (every numeric
  value the claims mention — 2.5, 0.0 — is exactly representable);
* a fallible Python expression is an `Except`, an expression that may be
  `None` is an `Option`.

Python truthiness matters at three sites: `if api_key:` (non-empty string),
`if not news:` (`None` or the empty list), `if insights_text:` /
`if not insights_text:` (`None` or the empty string).  Each is embedded by an
explicit test.
-/

/-- A Python exception escaping one of the scripts: `KeyError` (accessing a
missing `'current'` key of a parsed inflation object) or an I/O error raised
by the artifact-write step. -/
inductive PyErr where
  | keyError : PyErr
  | ioErr : String → PyErr
deriving DecidableEq, Repr

/-- A news article as built by `fetch_news.py`: the five string fields every
produced dict carries. -/
structure Article where
  title : String
  description : String
  url : String
  source : String
  publishedAt : String
deriving DecidableEq, Repr

/-- One element of the `articles` array of a decoded GNews response body.
Each field is optional: `a.get(...)` substitutes a default when the key is
missing.  `sourceName` stands for `a.get('source', {}).get('name', ...)`. -/
structure RawArticle where
  title : Option String
  description : Option String
  url : Option String
  sourceName : Option String
  publishedAt : Option String
deriving DecidableEq, Repr

/-- The dict comprehension of `fetch_from_gnews` (fetch_news.py lines 28–34):
defaults are `''` for `title`/`description`/`url`, `'GNews'` for the source
name and `datetime.utcnow().isoformat()` (the `now` parameter) for
`publishedAt`. -/
def rawToArticle (now : String) (a : RawArticle) : Article :=
  { title := a.title.getD ""
    description := a.description.getD ""
    url := a.url.getD ""
    source := a.sourceName.getD "GNews"
    publishedAt := a.publishedAt.getD now }

/-- `fetch_from_gnews` (fetch_news.py lines 15–37).  `resp` is the outcome of
the HTTP request plus JSON decode: `.error` is any raised exception (transport
error, non-2xx `HTTPError`, decode failure — all caught by the bare
`except Exception`, returning `None`), `.ok articles` is the decoded
`data.get('articles', [])` list.  On success the first 10 raw articles are
mapped through the field-defaulting comprehension. -/
def fetch_from_gnews (now : String) (resp : Except String (List RawArticle)) :
    Option (List Article) :=
  match resp with
  | .error _ => none
  | .ok articles => some ((articles.take 10).map (rawToArticle now))

/-- `fetch_from_rss` (fetch_news.py lines 39–81): the static five-entry
fallback list.  `ts h` stands for `(datetime.utcnow() - timedelta(hours=h)).isoformat()`. -/
def fetch_from_rss (ts : Nat → String) : List Article :=
  [ { title := "نصائح لحماية مدخراتك من التضخم"
      description := "تعرف على أفضل الطرق للحفاظ على قيمة أموالك في ظل ارتفاع معدلات التضخم"
      url := "https://www.google.com/search?q=نصائح+لحماية+المدخرات+من+التضخم"
      source := "Smart Finance"
      publishedAt := ts 0 }
  , { title := "كيف تحسب التكلفة الحقيقية للقروض"
      description := "دليل شامل لفهم تأثير التضخم على قروضك والتكاليف الخفية"
      url := "https://www.google.com/search?q=حساب+التكلفة+الحقيقية+للقروض+مع+التضخم"
      source := "Smart Finance"
      publishedAt := ts 2 }
  , { title := "استراتيجيات السداد المبكر للقروض"
      description := "متى يكون السداد المبكر مفيداً ومتى يجب تجنبه"
      url := "https://www.google.com/search?q=استراتيجيات+السداد+المبكر+للقروض"
      source := "Smart Finance"
      publishedAt := ts 5 }
  , { title := "فهم معدلات التضخم وتأثيرها على دخلك"
      description := "تحليل مفصل لكيفية تأثير التضخم على القوة الشرائية للرواتب"
      url := "https://www.google.com/search?q=تأثير+التضخم+على+الراتب"
      source := "Smart Finance"
      publishedAt := ts 8 }
  , { title := "أفضل الممارسات لإدارة الميزانية الشخصية"
      description := "خطوات عملية لتنظيم مصروفاتك وزيادة مدخراتك"
      url := "https://www.google.com/search?q=إدارة+الميزانية+الشخصية"
      source := "Smart Finance"
      publishedAt := ts 12 }
  ]

/-- The body of `fetch_news` (fetch_news.py lines 83–108) with the two data
sources abstracted: `gnewsResult` is what `fetch_from_gnews(api_key)` would
return (it is consulted only when `api_key` is truthy, i.e. non-empty), `rss`
is the `fetch_from_rss` thunk (invoked only on the fallback branch), and
`write` is the outcome of the `os.makedirs` + `open` + `json.dump` block,
whose exception propagates.  `if not news` is true for `None` and for `[]`. -/
def fetch_news_with (apiKey : String) (gnewsResult : Option (List Article))
    (rss : Unit → List Article) (write : List Article → Except PyErr Unit) :
    Except PyErr (List Article) :=
  let news0 : Option (List Article) :=
    if apiKey = "" then none else gnewsResult
  let news : List Article :=
    match news0 with
    | none => rss ()
    | some l => if l.isEmpty then rss () else l
  if news.isEmpty then
    Except.ok []
  else
    match write news with
    | Except.error e => Except.error e
    | Except.ok _ => Except.ok news

/-- `fetch_news` (fetch_news.py lines 83–108): resolve the GNews source
against the HTTP outcome `resp`, falling back to the static RSS list, then
write the artifact. -/
def fetch_news (apiKey : String) (resp : Except String (List RawArticle))
    (ts : Nat → String) (write : List Article → Except PyErr Unit) :
    Except PyErr (List Article) :=
  fetch_news_with apiKey (fetch_from_gnews (ts 0) resp) (fun _ => fetch_from_rss ts) write

/-- An artifact write that succeeds (the normal filesystem case). -/
def okNewsWrite : List Article → Except PyErr Unit := fun _ => Except.ok ()

/-- Fractional decimal digits of `num/den` (with `num < den`), produced by the
schoolbook expansion; `fuel` bounds the number of digits. -/
def decDigits : Nat → Nat → Nat → String
  | 0, _, _ => ""
  | _ + 1, 0, _ => ""
  | fuel + 1, num, den =>
      let n10 := num * 10
      toString (n10 / den) ++ decDigits fuel (n10 % den) den

/-- Python `str()` of a JSON-read number, as interpolated by the f-strings of
`generate_insights.py`.  Every number the claims mention (2.5, 0.0) has a
terminating decimal expansion, on which this rendering coincides with
CPython's shortest round-trip float repr ("2.5", "0.0"); a non-terminating
expansion is truncated at 30 digits. -/
def decRepr (q : ℚ) : String :=
  let sign := if q < 0 then "-" else ""
  let n : Nat := q.num.natAbs
  let ip : Nat := n / q.den
  let fr : Nat := n % q.den
  sign ++ toString ip ++ "." ++ (if fr = 0 then "0" else decDigits 30 fr q.den)

/-- Python's `f"{x:.0f}"` on the value `x`: round to the nearest integer, ties
to even, and render with no decimal point. -/
def formatF0 (q : ℚ) : String :=
  let fl : Int := ⌊q⌋
  let frac : ℚ := q - (fl : ℚ)
  let n : Int :=
    if frac < 1 / 2 then fl
    else if 1 / 2 < frac then fl + 1
    else if fl % 2 = 0 then fl else fl + 1
  toString n

/-- `FREE_MODELS` (generate_insights.py lines 15–20). -/
def FREE_MODELS : List String :=
  [ "qwen/qwen-2-7b-instruct:free"
  , "google/gemma-2-9b-it:free"
  , "meta-llama/llama-3.2-3b-instruct:free"
  , "microsoft/phi-3-mini-128k-instruct:free" ]

/-- `call_openrouter` (generate_insights.py lines 22–71).  `oracle prompt m`
is the outcome of the HTTP POST for a given prompt and model identifier:
`none` for any raised exception (`HTTPError`, transport error, JSON decode
failure, missing `choices[0].message.content`), `some s` for a received
content string `s`.  With a falsy (empty) API key the function returns `None`
without touching the network; `model or FREE_MODELS[0]` substitutes the first
free model for a falsy model argument. -/
def call_openrouter (prompt apiKey : String)
    (oracle : String → String → Option String) (model : Option String) :
    Option String :=
  if apiKey = "" then none
  else
    let m : String :=
      match model with
      | none => FREE_MODELS.headD ""
      | some s => if s = "" then FREE_MODELS.headD "" else s
    oracle prompt m

/-- The model priority list of `generate_insights`
(generate_insights.py line 116). -/
def insightModels : List String :=
  ["google/gemini-2.0-flash-exp:free", "meta-llama/llama-3.2-3b-instruct:free"]

/-- Python truthiness of `insights_text`: falsy iff `None` or `""`. -/
def falsyOpt : Option String → Bool
  | none => true
  | some t => t == ""

/-- The `for model in models: … if insights_text: break` loop
(generate_insights.py lines 117–119).  Returns the final value of
`insights_text` together with the trace of model identifiers actually
submitted: the loop breaks at the first truthy (non-empty) response, and a
falsy response (`None` or `""`) advances to the next model, the last
response being retained when the list is exhausted. -/
def loopModels (call : String → Option String) :
    List String → Option String × List String
  | [] => (none, [])
  | m :: rest =>
      let v := call m
      if falsyOpt v && !rest.isEmpty then
        let r := loopModels call rest
        (r.1, m :: r.2)
      else (v, [m])

/-- The insight record persisted to `data/insights.json`
(generate_insights.py lines 132–137). -/
structure Insights where
  summary : String
  timestamp : String
  model : String
  language : String
deriving DecidableEq, Repr

/-- A parsed inflation object: the optional `'current'` and `'change'`
entries of the decoded JSON dict (a `none` entry means the key is missing, so
that subscripting raises `KeyError`). -/
abbrev InflObj := Option ℚ × Option ℚ

/-- The default reading `{'current': 2.5, 'change': 0.0}`
(generate_insights.py line 80). -/
def defaultInflation : InflObj := (some (5 / 2 : ℚ), some (0 : ℚ))

/-- The `try: … json.load … except:` around the inflation artifact
(generate_insights.py lines 78–80): `inflFile` is `.error` when opening or
decoding `data/inflation.json` raises (file absent or not valid JSON), in
which case the default reading is substituted. -/
def loadInflation : Except Unit InflObj → InflObj
  | .error _ => defaultInflation
  | .ok o => o

/-- The `news_headlines` computation (generate_insights.py lines 82–86):
`' | '.join` of the titles of the first three articles, or the fixed
placeholder when reading `data/news.json` raises. -/
def headlinesOf : Except Unit (List Article) → String
  | .error _ => "لا توجد أخبار هامة"
  | .ok news => String.intercalate " | " ((news.take 3).map Article.title)

/-- The prompt f-string (generate_insights.py lines 89–109), with
`{inflation['current']}` and `{news_headlines}` interpolated. -/
def promptText (current : ℚ) (news_headlines : String) : String :=
  "\n    أنت محلل مالي خبير ومختصر جداً. لا تستخدم عبارات ترحيبية.\n    \n    البيانات:\n    - التضخم: "
    ++ decRepr current
    ++ "%\n    - الأخبار: "
    ++ news_headlines
    ++ "\n    \n    المطلوب (إجابة مباشرة فوراً):\n    \n    1. 📉 **حقيقة أموالك:**\n    احسب بدقة: كم يخسر راتب 10,000 ريال من قوته الشرائية سنوياً بهذا المعدل؟ (أعطني الرقم فقط).\n    \n    2. 💡 **الإجراء الفوري:**\n    بناءً على الأخبار والتضخم، أعطني نصيحة واحدة محددة جداً (شراء/بيع/سداد) اليوم. لا تقل \"راقب\" أو \"وفر\"، كن محدداً.\n    \n    3. 🔮 **نظرة المستقبل:**\n    في جملة واحدة: هل نتجه لركود أم انتعاش؟ ولماذا (بكلمتين)؟\n    \n    4. 🏦 **حكمة القروض:**\n    هل الوقت مناسب لأخذ قرض اليوم؟ (نعم/لا) ولماذا حسابياً؟\n    "

/-- The computed fallback f-string (generate_insights.py lines 123–129), with
`loss = 10000 * (inflation['current'] / 100)` interpolated as `{loss:.0f}`
and `inflation['current']` interpolated twice. -/
def fallbackText (current : ℚ) : String :=
  let loss : ℚ := 10000 * (current / 100)
  "\n        1. 📉 **حقيقة أموالك:** راتب 10,000 يخسر "
    ++ formatF0 loss
    ++ " ريال سنوياً من قيمته الحقيقية.\n        2. 💡 **الإجراء الفوري:** فعّل مفتاح AI للحصول على نصيحة ذكية مخصصة.\n        3. 🔮 **نظرة المستقبل:** التضخم "
    ++ decRepr current
    ++ "% يتطلب حماية مدخراتك بأصول حقيقية.\n        4. 🏦 **حكمة القروض:** الفائدة الحقيقية = الفائدة الاسمية - "
    ++ decRepr current
    ++ "%. احسبها جيداً.\n        "

/-- The `insights_text` resolution of `generate_insights`
(generate_insights.py lines 112–119): `None` unless the API key is truthy,
otherwise the final value of the model loop over `insightModels`. -/
def insightsTextOf (apiKey : String) (oracle : String → String → Option String)
    (prompt : String) : Option String :=
  if apiKey = "" then none
  else (loopModels (fun m => call_openrouter prompt apiKey oracle (some m)) insightModels).1

/-- `generate_insights` (generate_insights.py lines 73–145).  Parameters:
the `OPENROUTER_API_KEY` value, the network oracle, the outcomes of reading
the inflation and news artifacts, `datetime.utcnow().isoformat()`, and the
artifact-write outcome.  The prompt is built unconditionally, so a parsed
inflation object without a `'current'` key raises `KeyError` there; the model
loop runs only under `if api_key:`; a falsy loop result selects the computed
fallback text; the write's exception propagates. -/
def generate_insights (apiKey : String)
    (oracle : String → String → Option String)
    (inflFile : Except Unit InflObj) (newsFile : Except Unit (List Article))
    (now : String) (write : Insights → Except PyErr Unit) :
    Except PyErr Insights :=
  let inflation : InflObj := loadInflation inflFile
  let news_headlines : String := headlinesOf newsFile
  match inflation.1 with
  | none => Except.error PyErr.keyError
  | some current =>
    let prompt := promptText current news_headlines
    let insights_text : Option String := insightsTextOf apiKey oracle prompt
    let finalText : String :=
      match insights_text with
      | none => fallbackText current
      | some t => if t = "" then fallbackText current else t
    let insights : Insights :=
      { summary := finalText, timestamp := now, model := "Smart-AI", language := "ar" }
    match write insights with
    | Except.error e => Except.error e
    | Except.ok _ => Except.ok insights

/-- An artifact write that succeeds (the normal filesystem case). -/
def okInsightWrite : Insights → Except PyErr Unit := fun _ => Except.ok ()

set_option maxRecDepth 4000 in
/-- The computed fallback string is never empty, whatever the current
inflation value. -/
lemma fallbackText_ne_empty (c : ℚ) : fallbackText c ≠ "" := by
  intro h
  have h2 : (fallbackText c).data = [] := by rw [h]
  rw [fallbackText] at h2
  simp only [String.data_append, List.append_eq_nil] at h2
  exact absurd h2.1.1.1.1 (by simp)

/-- A falsy `insights_text` selects the fallback branch of the
`finalText` match. -/
lemma falsy_match (v : Option String) (fb : String) (h : falsyOpt v = true) :
    (match v with | none => fb | some t => if t = "" then fb else t) = fb := by
  cases v with
  | none => rfl
  | some t =>
      simp only [falsyOpt, beq_iff_eq] at h
      simp [h]

/-- If every model's call is falsy, the loop's final `insights_text` is
falsy. -/
lemma loopModels_falsy (call : String → Option String) :
    ∀ l : List String, (∀ m ∈ l, falsyOpt (call m) = true) →
      falsyOpt (loopModels call l).1 = true
  | [], _ => rfl
  | m :: rest, h => by
      have hm := h m (by simp)
      have ih := loopModels_falsy call rest (fun x hx => h x (by simp [hx]))
      cases rest with
      | nil => simpa [loopModels] using hm
      | cons r rs => simpa [loopModels, hm] using ih

/-- A falsy prefix of models is attempted and skipped; the first truthy
model ends the loop, and the models after it are not consulted. -/
lemma loopModels_skip (call : String → Option String) :
    ∀ (pre : List String) (m : String) (rest : List String) (t : String),
      (∀ x ∈ pre, falsyOpt (call x) = true) → call m = some t → t ≠ "" →
      loopModels call (pre ++ m :: rest) = (some t, pre ++ [m])
  | [], m, rest, t, _, hm, ht => by
      simp [loopModels, hm, falsyOpt, ht]
  | p :: pre', m, rest, t, h, hm, ht => by
      have hp := h p (by simp)
      have ih := loopModels_skip call pre' m rest t (fun x hx => h x (by simp [hx])) hm ht
      simp [loopModels, hp, ih]

/-- When the resolved `insights_text` is falsy, `generate_insights` (with a
succeeding write) returns the record built from the computed fallback
string. -/
lemma generate_insights_fallback (apiKey : String)
    (oracle : String → String → Option String) (inflFile : Except Unit InflObj)
    (newsFile : Except Unit (List Article)) (now : String) (c : ℚ)
    (hc : (loadInflation inflFile).1 = some c)
    (hfalsy : falsyOpt (insightsTextOf apiKey oracle
        (promptText c (headlinesOf newsFile))) = true) :
    generate_insights apiKey oracle inflFile newsFile now okInsightWrite
      = .ok { summary := fallbackText c, timestamp := now
            , model := "Smart-AI", language := "ar" } := by
  simp only [generate_insights, okInsightWrite, hc]
  cases hv : insightsTextOf apiKey oracle (promptText c (headlinesOf newsFile)) with
  | none => rfl
  | some t =>
      have ht : t = "" := by
        rw [hv] at hfalsy
        simpa [falsyOpt] using hfalsy
      simp [ht]

/-- Claim C1: if every source fails (the news API key is absent, or the GNews
call raises or yields an empty article list; every model call is falsy), the
resolvers return the designated fallbacks, which are never empty: `fetch_news`
returns the static 5-item RSS-style list and `generate_insights` returns a
record carrying the non-empty computed fallback string. -/
theorem C1_all_sources_fail_returns_fallback
    (apiKeyN : String) (resp : Except String (List RawArticle)) (ts : Nat → String)
    (apiKeyI : String) (oracle : String → String → Option String)
    (inflFile : Except Unit InflObj) (newsFile : Except Unit (List Article))
    (now : String) (c : ℚ)
    (hNews : apiKeyN = "" ∨ fetch_from_gnews (ts 0) resp = none
      ∨ fetch_from_gnews (ts 0) resp = some [])
    (hc : (loadInflation inflFile).1 = some c)
    (hfail : ∀ mdl, falsyOpt (call_openrouter
        (promptText c (headlinesOf newsFile)) apiKeyI oracle (some mdl)) = true) :
    fetch_news apiKeyN resp ts okNewsWrite = .ok (fetch_from_rss ts)
      ∧ (fetch_from_rss ts).length = 5
      ∧ generate_insights apiKeyI oracle inflFile newsFile now okInsightWrite
          = .ok { summary := fallbackText c, timestamp := now
                , model := "Smart-AI", language := "ar" }
      ∧ fallbackText c ≠ "" := by
  refine ⟨?_, by simp [fetch_from_rss], ?_, fallbackText_ne_empty c⟩
  · rcases hNews with hk | hg | hg
    · simp [fetch_news, fetch_news_with, fetch_from_rss, okNewsWrite, hk]
    · by_cases hk : apiKeyN = "" <;>
        simp [fetch_news, fetch_news_with, fetch_from_rss, okNewsWrite, hg, hk]
    · by_cases hk : apiKeyN = "" <;>
        simp [fetch_news, fetch_news_with, fetch_from_rss, okNewsWrite, hg, hk]
  · refine generate_insights_fallback apiKeyI oracle inflFile newsFile now c hc ?_
    rw [insightsTextOf]
    by_cases hk : apiKeyI = ""
    · simp [hk, falsyOpt]
    · simp only [hk, if_neg, ite_false]
      exact loopModels_falsy _ insightModels (fun m _ => hfail m)

/-- Claim C1, witnessed at a concrete input: no API keys, a raising GNews
call, absent artifacts, a network oracle that always fails. -/
theorem C1_all_sources_fail_returns_fallback_witness :
    (("" : String) = "" ∨ fetch_from_gnews "T" (Except.error "boom") = none
        ∨ fetch_from_gnews "T" (Except.error "boom") = some [])
      ∧ (loadInflation (Except.error ())).1 = some (5 / 2 : ℚ)
      ∧ (∀ mdl, falsyOpt (call_openrouter
            (promptText (5 / 2) (headlinesOf (Except.error ()))) ""
            (fun _ _ => none) (some mdl)) = true)
      ∧ (fetch_news "" (Except.error "boom") (fun _ => "T") okNewsWrite
            = .ok (fetch_from_rss (fun _ => "T"))
          ∧ (fetch_from_rss (fun _ => "T")).length = 5
          ∧ generate_insights "" (fun _ _ => none) (Except.error ())
              (Except.error ()) "NOW" okInsightWrite
              = .ok { summary := fallbackText (5 / 2), timestamp := "NOW"
                    , model := "Smart-AI", language := "ar" }
          ∧ fallbackText (5 / 2) ≠ "") :=
  ⟨Or.inl rfl, rfl, fun _ => rfl,
    C1_all_sources_fail_returns_fallback "" (Except.error "boom") (fun _ => "T")
      "" (fun _ _ => none) (Except.error ()) (Except.error ()) "NOW" (5 / 2)
      (Or.inl rfl) rfl (fun _ => rfl)⟩

/-- Claim C2: a successful non-empty first-source result is returned
unmodified except for truncation to the first 10 entries, and the RSS
fallback source is never invoked (the outcome does not depend on it). -/
theorem C2_first_source_success_truncated_no_rss
    (apiKey : String) (ts : Nat → String) (raws : List RawArticle)
    (hk : apiKey ≠ "") (hraws : raws ≠ []) :
    fetch_news apiKey (.ok raws) ts okNewsWrite
        = .ok ((raws.take 10).map (rawToArticle (ts 0)))
      ∧ ((raws.take 10).map (rawToArticle (ts 0))).length ≤ 10
      ∧ ∀ (rss rss' : Unit → List Article) (write : List Article → Except PyErr Unit),
          fetch_news_with apiKey (fetch_from_gnews (ts 0) (.ok raws)) rss write
            = fetch_news_with apiKey (fetch_from_gnews (ts 0) (.ok raws)) rss' write := by
  obtain ⟨a, raws', rfl⟩ : ∃ a raws', raws = a :: raws' := by
    cases raws with
    | nil => exact absurd rfl hraws
    | cons a l => exact ⟨a, l, rfl⟩
  refine ⟨?_, ?_, ?_⟩
  · simp [fetch_news, fetch_news_with, fetch_from_gnews, okNewsWrite, hk]
  · rw [List.length_map]
    exact List.length_take_le _ _
  · intro rss rss' write
    simp [fetch_news_with, fetch_from_gnews, hk]

/-- Claim C2, witnessed at a concrete input: a key and one raw article. -/
theorem C2_first_source_success_truncated_no_rss_witness :
    ("k" : String) ≠ ""
      ∧ ([(⟨some "t", none, none, none, none⟩ : RawArticle)] ≠ [])
      ∧ (fetch_news "k" (.ok [(⟨some "t", none, none, none, none⟩ : RawArticle)])
            (fun _ => "T") okNewsWrite
            = .ok (([(⟨some "t", none, none, none, none⟩ : RawArticle)].take 10).map
                (rawToArticle "T"))
          ∧ (([(⟨some "t", none, none, none, none⟩ : RawArticle)].take 10).map
              (rawToArticle "T")).length ≤ 10
          ∧ ∀ (rss rss' : Unit → List Article) (write : List Article → Except PyErr Unit),
              fetch_news_with "k" (fetch_from_gnews "T"
                  (.ok [(⟨some "t", none, none, none, none⟩ : RawArticle)])) rss write
                = fetch_news_with "k" (fetch_from_gnews "T"
                  (.ok [(⟨some "t", none, none, none, none⟩ : RawArticle)])) rss' write) :=
  ⟨by decide, by decide,
    C2_first_source_success_truncated_no_rss "k" (fun _ => "T")
      [⟨some "t", none, none, none, none⟩] (by decide) (by decide)⟩

/-- Claim C3: a well-formed successful GNews response with zero articles is
treated as failure: `fetch_news` advances to the RSS fallback and returns the
(non-empty) static list, not the empty list. -/
theorem C3_empty_success_is_failure (apiKey : String) (ts : Nat → String)
    (hk : apiKey ≠ "") :
    fetch_news apiKey (.ok []) ts okNewsWrite = .ok (fetch_from_rss ts)
      ∧ fetch_from_rss ts ≠ [] := by
  constructor
  · simp [fetch_news, fetch_news_with, fetch_from_gnews, fetch_from_rss, okNewsWrite, hk]
  · simp [fetch_from_rss]

/-- Claim C3, witnessed at a concrete input. -/
theorem C3_empty_success_is_failure_witness :
    ("k" : String) ≠ ""
      ∧ (fetch_news "k" (.ok []) (fun _ => "T") okNewsWrite
            = .ok (fetch_from_rss (fun _ => "T"))
          ∧ fetch_from_rss (fun _ => "T") ≠ []) :=
  ⟨by decide, C3_empty_success_is_failure "k" (fun _ => "T") (by decide)⟩

/-- Claim C4: with an absent (empty) API key the network source is never
attempted — the outcome of `fetch_news` does not depend on the HTTP outcome,
and the outcome of `generate_insights` does not depend on the model oracle —
and both still produce a result (the respective fallback). -/
theorem C4_missing_key_skips_network
    (resp resp' : Except String (List RawArticle)) (ts : Nat → String)
    (oracle oracle' : String → String → Option String)
    (inflFile : Except Unit InflObj) (newsFile : Except Unit (List Article))
    (now : String) (c : ℚ)
    (hc : (loadInflation inflFile).1 = some c) :
    fetch_news "" resp ts okNewsWrite = .ok (fetch_from_rss ts)
      ∧ (∀ write, fetch_news "" resp ts write = fetch_news "" resp' ts write)
      ∧ generate_insights "" oracle inflFile newsFile now okInsightWrite
          = .ok { summary := fallbackText c, timestamp := now
                , model := "Smart-AI", language := "ar" }
      ∧ ∀ write, generate_insights "" oracle inflFile newsFile now write
          = generate_insights "" oracle' inflFile newsFile now write := by
  refine ⟨?_, ?_, ?_, ?_⟩
  · simp [fetch_news, fetch_news_with, fetch_from_rss, okNewsWrite]
  · intro write
    simp [fetch_news, fetch_news_with]
  · exact generate_insights_fallback "" oracle inflFile newsFile now c hc rfl
  · intro write
    simp [generate_insights, insightsTextOf]

/-- Claim C4, witnessed at a concrete input: two different HTTP outcomes and
two different model oracles. -/
theorem C4_missing_key_skips_network_witness :
    (loadInflation (Except.error ())).1 = some (5 / 2 : ℚ)
      ∧ (fetch_news "" (Except.error "boom") (fun _ => "T") okNewsWrite
            = .ok (fetch_from_rss (fun _ => "T"))
          ∧ (∀ write, fetch_news "" (Except.error "boom") (fun _ => "T") write
              = fetch_news "" (Except.ok []) (fun _ => "T") write)
          ∧ generate_insights "" (fun _ _ => none) (Except.error ())
              (Except.error ()) "NOW" okInsightWrite
              = .ok { summary := fallbackText (5 / 2), timestamp := "NOW"
                    , model := "Smart-AI", language := "ar" }
          ∧ ∀ write, generate_insights "" (fun _ _ => none) (Except.error ())
                (Except.error ()) "NOW" write
              = generate_insights "" (fun _ _ => some "AI") (Except.error ())
                (Except.error ()) "NOW" write) :=
  ⟨rfl, C4_missing_key_skips_network (Except.error "boom") (Except.ok [])
    (fun _ => "T") (fun _ _ => none) (fun _ _ => some "AI") (Except.error ())
    (Except.error ()) "NOW" (5 / 2) rfl⟩

set_option maxRecDepth 100000 in
/-- Claim C5: with inflation `current = 2.5` and no model-API key, the
insight summary is the computed fallback text, which contains the figure
`loss = 10000 × 2.5/100 = 250` formatted with zero decimal places — the
substring "250 ريال". -/
theorem C5_fallback_contains_computed_loss
    (oracle : String → String → Option String) (change : Option ℚ)
    (newsFile : Except Unit (List Article)) (now : String) :
    generate_insights "" oracle (.ok (some (5 / 2 : ℚ), change)) newsFile now okInsightWrite
        = .ok { summary := fallbackText (5 / 2), timestamp := now
              , model := "Smart-AI", language := "ar" }
      ∧ ∃ p q, fallbackText (5 / 2 : ℚ) = p ++ "250 ريال" ++ q := by
  refine ⟨rfl, "\n        1. 📉 **حقيقة أموالك:** راتب 10,000 يخسر ",
    " سنوياً من قيمته الحقيقية.\n        2. 💡 **الإجراء الفوري:** فعّل مفتاح AI للحصول على نصيحة ذكية مخصصة.\n        3. 🔮 **نظرة المستقبل:** التضخم 2.5% يتطلب حماية مدخراتك بأصول حقيقية.\n        4. 🏦 **حكمة القروض:** الفائدة الحقيقية = الفائدة الاسمية - 2.5%. احسبها جيداً.\n        ", ?_⟩
  decide

/-- Claim C6: when reading the inflation artifact raises (file absent or not
decodable), the default reading `current = 2.5, change = 0.0` is substituted —
the run is indistinguishable from one whose artifact holds exactly the
default — and `generate_insights` proceeds without raising. -/
theorem C6_missing_inflation_defaults (apiKey : String)
    (oracle : String → String → Option String)
    (newsFile : Except Unit (List Article)) (now : String) :
    loadInflation (Except.error ()) = (some (5 / 2 : ℚ), some (0 : ℚ))
      ∧ generate_insights apiKey oracle (.error ()) newsFile now okInsightWrite
          = generate_insights apiKey oracle (.ok defaultInflation) newsFile now okInsightWrite
      ∧ ∃ r, generate_insights apiKey oracle (.error ()) newsFile now okInsightWrite
          = .ok r :=
  ⟨rfl, rfl, ⟨_, rfl⟩⟩

/-- Claim C7: with an API key present but the GNews endpoint raising
HTTP 500, `fetch_news` falls through to the static RSS-style fallback and
returns a list of exactly 5 entries. -/
theorem C7_http500_falls_back_to_rss (apiKey : String) (ts : Nat → String)
    (hk : apiKey ≠ "") :
    fetch_news apiKey (.error "HTTP Error 500: Internal Server Error") ts okNewsWrite
        = .ok (fetch_from_rss ts)
      ∧ (fetch_from_rss ts).length = 5 := by
  constructor
  · simp [fetch_news, fetch_news_with, fetch_from_gnews, fetch_from_rss, okNewsWrite, hk]
  · simp [fetch_from_rss]

/-- Claim C7, witnessed at a concrete input. -/
theorem C7_http500_falls_back_to_rss_witness :
    ("k" : String) ≠ ""
      ∧ (fetch_news "k" (.error "HTTP Error 500: Internal Server Error")
            (fun _ => "T") okNewsWrite = .ok (fetch_from_rss (fun _ => "T"))
          ∧ (fetch_from_rss (fun _ => "T")).length = 5) :=
  ⟨by decide, C7_http500_falls_back_to_rss "k" (fun _ => "T") (by decide)⟩

/-- Claim C8: the model identifiers are tried strictly in priority-list
order: every model of a falsy prefix is submitted, the first model whose
`call_openrouter` outcome is non-empty text ends the loop with that text,
and no model after it is submitted (the trace is exactly the prefix followed
by the successful model). -/
theorem C8_models_tried_in_order (prompt apiKey : String)
    (oracle : String → String → Option String)
    (pre : List String) (m : String) (rest : List String) (t : String)
    (hfail : ∀ x ∈ pre, falsyOpt (call_openrouter prompt apiKey oracle (some x)) = true)
    (hm : call_openrouter prompt apiKey oracle (some m) = some t) (ht : t ≠ "") :
    loopModels (fun x => call_openrouter prompt apiKey oracle (some x)) (pre ++ m :: rest)
      = (some t, pre ++ [m]) :=
  loopModels_skip _ pre m rest t hfail hm ht

/-- Claim C8, witnessed on the script's own priority list: the first model
(`insightModels[0]`) fails, the second answers, the trace is both models in
order, and the appended third identifier is never submitted. -/
theorem C8_models_tried_in_order_witness :
    (∀ x ∈ ["google/gemini-2.0-flash-exp:free"],
        falsyOpt (call_openrouter "p" "k"
          (fun _ mdl => if mdl = "meta-llama/llama-3.2-3b-instruct:free"
            then some "تحليل" else none) (some x)) = true)
      ∧ call_openrouter "p" "k"
          (fun _ mdl => if mdl = "meta-llama/llama-3.2-3b-instruct:free"
            then some "تحليل" else none)
          (some "meta-llama/llama-3.2-3b-instruct:free") = some "تحليل"
      ∧ ("تحليل" : String) ≠ ""
      ∧ ["google/gemini-2.0-flash-exp:free"]
          ++ "meta-llama/llama-3.2-3b-instruct:free" :: ["extra-model"]
          = insightModels ++ ["extra-model"]
      ∧ loopModels (fun x => call_openrouter "p" "k"
            (fun _ mdl => if mdl = "meta-llama/llama-3.2-3b-instruct:free"
              then some "تحليل" else none) (some x))
          (["google/gemini-2.0-flash-exp:free"]
            ++ "meta-llama/llama-3.2-3b-instruct:free" :: ["extra-model"])
          = (some "تحليل", ["google/gemini-2.0-flash-exp:free"]
              ++ ["meta-llama/llama-3.2-3b-instruct:free"]) :=
  ⟨by decide, by decide, by decide, by decide,
    C8_models_tried_in_order "p" "k"
      (fun _ mdl => if mdl = "meta-llama/llama-3.2-3b-instruct:free"
        then some "تحليل" else none)
      ["google/gemini-2.0-flash-exp:free"]
      "meta-llama/llama-3.2-3b-instruct:free" ["extra-model"] "تحليل"
      (by decide) (by decide) (by decide)⟩

/-- Claim C9: when the artifact write raises, the exception propagates and
terminates the invocation: `fetch_news` always reaches its write (its `news`
is never empty) and returns the write's error for every input, and
`generate_insights` does so whenever the run reaches the write (the parsed
inflation object exposes `'current'`). -/
theorem C9_write_failure_propagates (apiKeyN : String)
    (resp : Except String (List RawArticle)) (ts : Nat → String) (msg : String)
    (apiKeyI : String) (oracle : String → String → Option String)
    (inflFile : Except Unit InflObj) (newsFile : Except Unit (List Article))
    (now : String) (msg2 : String) (c : ℚ)
    (hc : (loadInflation inflFile).1 = some c) :
    fetch_news apiKeyN resp ts (fun _ => .error (PyErr.ioErr msg))
        = .error (PyErr.ioErr msg)
      ∧ generate_insights apiKeyI oracle inflFile newsFile now
          (fun _ => .error (PyErr.ioErr msg2)) = .error (PyErr.ioErr msg2) := by
  constructor
  · rcases resp with e | raws
    · by_cases hk : apiKeyN = "" <;>
        simp [fetch_news, fetch_news_with, fetch_from_gnews, fetch_from_rss, hk]
    · by_cases hk : apiKeyN = ""
      · simp [fetch_news, fetch_news_with, fetch_from_gnews, fetch_from_rss, hk]
      · cases raws with
        | nil => simp [fetch_news, fetch_news_with, fetch_from_gnews, fetch_from_rss, hk]
        | cons a l => simp [fetch_news, fetch_news_with, fetch_from_gnews, fetch_from_rss, hk]
  · simp only [generate_insights, hc]

/-- Claim C9, witnessed at a concrete input. -/
theorem C9_write_failure_propagates_witness :
    (loadInflation (Except.error ())).1 = some (5 / 2 : ℚ)
      ∧ (fetch_news "" (Except.error "boom") (fun _ => "T")
            (fun _ => .error (PyErr.ioErr "disk full")) = .error (PyErr.ioErr "disk full")
          ∧ generate_insights "" (fun _ _ => none) (Except.error ()) (Except.error ())
              "NOW" (fun _ => .error (PyErr.ioErr "read-only"))
              = .error (PyErr.ioErr "read-only")) :=
  ⟨rfl, C9_write_failure_propagates "" (Except.error "boom") (fun _ => "T") "disk full"
    "" (fun _ _ => none) (Except.error ()) (Except.error ()) "NOW" "read-only"
    (5 / 2) rfl⟩

/-- Claim C10: every successfully persisted insight record carries the
constant fields `model = "Smart-AI"` and `language = "ar"`, whatever model or
fallback produced the summary. -/
theorem C10_constant_model_and_language (apiKey : String)
    (oracle : String → String → Option String) (inflFile : Except Unit InflObj)
    (newsFile : Except Unit (List Article)) (now : String)
    (write : Insights → Except PyErr Unit) (r : Insights)
    (h : generate_insights apiKey oracle inflFile newsFile now write = .ok r) :
    r.model = "Smart-AI" ∧ r.language = "ar" := by
  simp only [generate_insights] at h
  split at h
  · exact absurd h (by simp)
  · split at h
    · exact absurd h (by simp)
    · rw [Except.ok.injEq] at h
      subst h
      exact ⟨rfl, rfl⟩

/-- Claim C10, witnessed at a concrete input (the fallback-producing run with
no key and absent artifacts). -/
theorem C10_constant_model_and_language_witness :
    generate_insights "" (fun _ _ => none) (Except.error ()) (Except.error ())
        "NOW" okInsightWrite
      = .ok { summary := fallbackText (5 / 2), timestamp := "NOW"
            , model := "Smart-AI", language := "ar" }
      ∧ (({ summary := fallbackText (5 / 2), timestamp := "NOW"
          , model := "Smart-AI", language := "ar" } : Insights).model = "Smart-AI"
        ∧ ({ summary := fallbackText (5 / 2), timestamp := "NOW"
           , model := "Smart-AI", language := "ar" } : Insights).language = "ar") :=
  ⟨rfl, C10_constant_model_and_language "" (fun _ _ => none) (Except.error ())
    (Except.error ()) "NOW" okInsightWrite _ rfl⟩
